import Mathlib

/-!
Shallow embedding of the asynchronous batch-job orchestration subsystem of the
draft-two repository, together with theorems settling the specification claims.

The embedding follows the source files line by line:
  * draft_two/pipeline/batch_processor.py   (process_batch)
  * draft_two/pipeline/fact_extractor.py    (extract_facts_in_batch)
External effects (remote service calls, file writes, sleeps) are recorded as an
explicit event trace, and every remote interaction is a parameter of the
embedded function: the remote is modelled by the finite sequence of status
records it returns to successive poll queries and by the decoded lines of its
result artifact.
-/

namespace DraftTwo

/-- One status record returned by the remote for a batch job, as the code
reads it: `batch.status`, `batch.errors` (absent or some detail string) and
`batch.output_file_id` (absent or a file id). -/
structure Batch where
  status : String
  errors : Option String
  output_file_id : Option String
deriving DecidableEq

/-- The terminal-status test of the polling loop:
`batch.status in ["completed", "failed", "cancelled"]`. -/
def isTerminal (s : String) : Bool :=
  s == "completed" || s == "failed" || s == "cancelled"

/-- One line of the result artifact, after JSON decoding is applied to it.
`malformed` stands for a line on which `json.loads` raises; `parsed cid cont raw`
stands for a decoded object whose `custom_id` lookup gives `cid` (absent when
the field is missing) and whose access path
`response.body.choices[0].message.content` gives `cont` (absent when a
`KeyError` or `IndexError` would be raised). `raw` is the raw text of the
line, kept so that verbatim preservation of the artifact can be stated. -/
inductive RawLine
  | malformed (raw : String)
  | parsed (customId : Option String) (content : Option String) (raw : String)
deriving DecidableEq

/-- A line is processed without an exception exactly when it decodes and its
content path resolves. -/
def lineOk : RawLine → Bool
  | RawLine.parsed _ (some _) _ => true
  | _ => false

/-- The remote service, reduced to the data the code consumes from it: the
successive records returned by `client.batches.retrieve` and the decoded
lines of the completed output file. -/
structure Remote where
  polls : List Batch
  resultLines : List RawLine
deriving DecidableEq

/-- Externally observable actions of a batch stage, in the order the code
performs them. -/
inductive Event
  | uploadFile
  | createJob
  | queryStatus
  | sleep (seconds : Nat)
  | fetchContent
  | writeOutput (name : String) (content : String)
  | writeCsv (name : String) (rows : List String)
  | writeRawDiagnostic (name : String) (content : List RawLine)
deriving DecidableEq

/-- Events emitted by the result-demultiplexing phase (content fetch and all
file writes), as opposed to submission and polling events. -/
def isDemuxEvent : Event → Bool
  | Event.fetchContent => true
  | Event.writeOutput _ _ => true
  | Event.writeCsv _ _ => true
  | Event.writeRawDiagnostic _ _ => true
  | _ => false

def isQuery : Event → Bool
  | Event.queryStatus => true
  | _ => false

def isSleep : Event → Bool
  | Event.sleep _ => true
  | _ => false

def isWriteOutput : Event → Bool
  | Event.writeOutput _ _ => true
  | _ => false

/-- One entry of a directory listing: the file name and its content, absent
when opening the file raises an IO error. -/
structure PFile where
  name : String
  content : Option String
deriving DecidableEq

/-- Python `str.endswith`: the final characters of `s` spell `suffix`. -/
def strEndsWith (s suffix : String) : Bool :=
  decide (s.data.reverse.take suffix.data.length = suffix.data.reverse)

/-- `os.path.splitext(p)[0]` for a bare file name (no path separator): split
at the last dot, unless every character before that dot is itself a dot, in
which case the name is returned whole (the Python treatment of leading-dot
file names). -/
def splitextStem (p : String) : String :=
  let cs := p.data
  let k := cs.reverse.findIdx (fun c => c == '.')
  if k < cs.length then
    let dotIdx := cs.length - 1 - k
    if (cs.take dotIdx).all (fun c => c == '.') then p
    else String.mk (cs.take dotIdx)
  else p

/-- The credential check shared by both batch stages:
`if not api_key or api_key == "YOUR_OPENAI_API_KEY_HERE"`. `none` models an
unset environment variable, `some ""` the falsy empty string. -/
def apiKeyRejected : Option String → Bool
  | none => true
  | some s => s == "" || s == "YOUR_OPENAI_API_KEY_HERE"

/-- One chat request of the serialized batch, with the fields the code fills
in: `custom_id`, `body.model`, `body.messages` as (role, content) pairs and
the optional `body.temperature`. -/
structure BatchRequest where
  custom_id : String
  model : String
  messages : List (String × String)
  temperature : Option Nat
deriving DecidableEq

/-- The user prompt of `process_batch`: metadata then transcript, joined
exactly as the f-string in the source does. -/
def userPrompt (metadataContent textContent : String) : String :=
  "Based on the following metadata and transcript write a police report\n" ++
    "Metadata:\n" ++ metadataContent ++ "\n" ++ "Transcript:\n" ++ textContent

/-- The request-building loop of `process_batch`: one request per listed
file, skipping files whose read raises, with `custom_id` the splitext stem of
the file name. -/
def buildRequests (systemPrompt metadataContent : String) (files : List PFile) :
    List BatchRequest :=
  files.filterMap fun f =>
    match f.content with
    | none => none
    | some textContent =>
        some { custom_id := splitextStem f.name
               model := "gpt-4-turbo"
               messages := [("system", systemPrompt),
                            ("user", userPrompt metadataContent textContent)]
               temperature := some 0 }

/-- The polling loop shared verbatim by both batch stages: retrieve the job,
break when the status is terminal, otherwise sleep 30 seconds and retrieve
again. The argument is the finite sequence of records the remote returns to
successive queries; `none` is returned when that sequence is exhausted before
a terminal status (the real loop would still be polling). -/
def pollLoop : List Batch → Option Batch × List Event
  | [] => (none, [])
  | b :: rest =>
      if isTerminal b.status then (some b, [Event.queryStatus])
      else ((pollLoop rest).1, Event.queryStatus :: Event.sleep 30 :: (pollLoop rest).2)

/-- The expected event trace of a poll that sees `n` non-terminal statuses
followed by one terminal status: a query and a 30 second sleep per
non-terminal report, then one final query with no sleep after it. -/
def pollEvents : Nat → List Event
  | 0 => [Event.queryStatus]
  | n + 1 => Event.queryStatus :: Event.sleep 30 :: pollEvents n

/-- The result-saving loop of `process_batch` (a single try block around the
whole loop): lines are processed in order; a line that fails to decode or
whose content path fails aborts the loop at that point. Returns the
(file name, content) pairs written before the abort and whether an exception
was caught. -/
def demuxLines : List RawLine → List (String × String) × Bool
  | [] => ([], false)
  | RawLine.malformed _ :: _ => ([], true)
  | RawLine.parsed _ none _ :: _ => ([], true)
  | RawLine.parsed cid (some c) _ :: rest =>
      (((cid.getD "unknown_request") ++ ".txt", c) :: (demuxLines rest).1,
        (demuxLines rest).2)

/-- The demultiplexing phase of `process_batch` as an event trace: one
`writeOutput` per line processed before any abort, then, exactly when an
exception was caught, one raw-diagnostic write holding the artifact verbatim. -/
def demuxPhase (diagName : String) (lines : List RawLine) : Bool × List Event :=
  let r := demuxLines lines
  (r.2, (r.1.map fun fc => Event.writeOutput fc.1 fc.2) ++
    (if r.2 then [Event.writeRawDiagnostic diagName lines] else []))

/-- Stage outcomes, one constructor per return path of the source functions. -/
inductive Outcome
  | missingApiKey
  | inputNotFound
  | noEligibleFiles
  | noValidRequests
  | pollPending
  | jobNotCompleted (status : String) (errors : Option String)
  | missingOutputFileId
  | done (parseFailed : Bool)
deriving DecidableEq

/-- `process_batch` of draft_two/pipeline/batch_processor.py. Parameters
stand for the environment the function reads: the API key from the
environment, the instructions file content (absent when opening raises), the
metadata file content (absent degrades to the empty string with a warning),
the input directory listing (absent when `os.listdir` raises) and the remote
service. The value is the return path taken plus the trace of external
actions. -/
def process_batch (apiKey : Option String) (instructions : Option String)
    (metadataContent : Option String) (folder : Option (List PFile))
    (remote : Remote) : Outcome × List Event :=
  if apiKeyRejected apiKey then (Outcome.missingApiKey, [])
  else
    match instructions with
    | none => (Outcome.inputNotFound, [])
    | some systemPrompt =>
      match folder with
      | none => (Outcome.inputNotFound, [])
      | some files =>
        let eligible := files.filter fun f => strEndsWith f.name ".txt"
        if eligible.isEmpty then (Outcome.noEligibleFiles, [])
        else
          let reqs := buildRequests systemPrompt (metadataContent.getD "") eligible
          if reqs.isEmpty then (Outcome.noValidRequests, [])
          else
            let evs0 : List Event := [Event.uploadFile, Event.createJob]
            match pollLoop remote.polls with
            | (none, pevs) => (Outcome.pollPending, evs0 ++ pevs)
            | (some b, pevs) =>
              if b.status != "completed" then
                (Outcome.jobNotCompleted b.status b.errors, evs0 ++ pevs)
              else
                match b.output_file_id with
                | none => (Outcome.missingOutputFileId, evs0 ++ pevs)
                | some _ =>
                  let d := demuxPhase "raw_error_output.txt" remote.resultLines
                  (Outcome.done d.1, evs0 ++ pevs ++ [Event.fetchContent] ++ d.2)

/-- The user prompt of `extract_facts_in_batch`. -/
def factUserPrompt (textContent : String) : String :=
  "Please breakdown the following report into independent facts: " ++ textContent

/-- The request-building loop of `extract_facts_in_batch`: same shape as
`buildRequests` but a single user message, model "gpt-5.2" and no
temperature. -/
def buildFactRequests (files : List PFile) : List BatchRequest :=
  files.filterMap fun f =>
    match f.content with
    | none => none
    | some textContent =>
        some { custom_id := splitextStem f.name
               model := "gpt-5.2"
               messages := [("user", factUserPrompt textContent)]
               temperature := none }

/-- The fact list built from one content string:
`[fact.strip() for fact in content.strip().split("\n") if fact.strip()]`. -/
def splitFacts (content : String) : List String :=
  (content.trim.splitOn "\n").filterMap fun fct =>
    let t := fct.trim
    if t = "" then none else some t

/-- The result-saving loop of `extract_facts_in_batch`: as `demuxLines` but
each processed line yields a CSV file named by the key with a "Fact" header
row followed by one row per extracted fact. -/
def demuxCsvLines : List RawLine → List (String × List String) × Bool
  | [] => ([], false)
  | RawLine.malformed _ :: _ => ([], true)
  | RawLine.parsed _ none _ :: _ => ([], true)
  | RawLine.parsed cid (some c) _ :: rest =>
      (((cid.getD "unknown_request") ++ ".csv", "Fact" :: splitFacts c)
          :: (demuxCsvLines rest).1,
        (demuxCsvLines rest).2)

/-- The demultiplexing phase of `extract_facts_in_batch` as an event trace. -/
def demuxCsvPhase (diagName : String) (lines : List RawLine) : Bool × List Event :=
  let r := demuxCsvLines lines
  (r.2, (r.1.map fun fc => Event.writeCsv fc.1 fc.2) ++
    (if r.2 then [Event.writeRawDiagnostic diagName lines] else []))

/-- `extract_facts_in_batch` of draft_two/pipeline/fact_extractor.py.
`inputFolderName` is `os.path.basename(input_folder_path)`, used only in the
name of the raw-diagnostic file. -/
def extract_facts_in_batch (apiKey : Option String) (folder : Option (List PFile))
    (inputFolderName : String) (remote : Remote) : Outcome × List Event :=
  if apiKeyRejected apiKey then (Outcome.missingApiKey, [])
  else
    match folder with
    | none => (Outcome.inputNotFound, [])
    | some files =>
      let eligible := files.filter fun f => strEndsWith f.name ".txt"
      if eligible.isEmpty then (Outcome.noEligibleFiles, [])
      else
        let reqs := buildFactRequests eligible
        if reqs.isEmpty then (Outcome.noValidRequests, [])
        else
          let evs0 : List Event := [Event.uploadFile, Event.createJob]
          match pollLoop remote.polls with
          | (none, pevs) => (Outcome.pollPending, evs0 ++ pevs)
          | (some b, pevs) =>
            if b.status != "completed" then
              (Outcome.jobNotCompleted b.status b.errors, evs0 ++ pevs)
            else
              match b.output_file_id with
              | none => (Outcome.missingOutputFileId, evs0 ++ pevs)
              | some _ =>
                let d := demuxCsvPhase
                  ("raw_error_output_" ++ inputFolderName ++ ".txt") remote.resultLines
                (Outcome.done d.1, evs0 ++ pevs ++ [Event.fetchContent] ++ d.2)

/-- Per-task outcome of a fan-out call: a successful result or an error
attributed to the task. -/
inductive FanOutcome
  | ok (result : String)
  | err (msg : String)
deriving DecidableEq

/-- Modelled from the spec: the Fan-out Invoker of section 4.6 is absent from
the sources — run_pipeline.py passes a repeat count (`-n`, from its
`--num_repeats` option) to the batch processor, but no function implementing
the repeated fan-out invocation exists under src/. Following the words of the
spec: `count` independent remote calls all carry the identical `payload`;
`remote payload i` is the per-index outcome of task `i`; `order` is the order
in which the calls happen to complete; each completion is buffered at its
original task index in an index-ordered collection of length `count`, which
is returned once all completions are in. -/
def invoke_many (payload : String) (count : Nat)
    (remote : String → Nat → FanOutcome) (order : List Nat) :
    List (Option FanOutcome) :=
  order.foldl (fun buf i => buf.set i (some (remote payload i)))
    (List.replicate count none)

/-! ## Concrete fixtures used by counterexamples and witnesses -/

/-- A remote whose completed job returns one malformed line followed by five
well-formed lines. -/
def remoteBadFirst : Remote :=
  ⟨[⟨"completed", none, some "out1"⟩],
   [RawLine.malformed "not json",
    RawLine.parsed (some "r1") (some "c1") "l1",
    RawLine.parsed (some "r2") (some "c2") "l2",
    RawLine.parsed (some "r3") (some "c3") "l3",
    RawLine.parsed (some "r4") (some "c4") "l4",
    RawLine.parsed (some "r5") (some "c5") "l5"]⟩

/-- A directory listing with one readable transcript. -/
def folderOne : List PFile := [⟨"a.txt", some "t"⟩]

/-- Two distinct readable files, both ending in ".txt", whose splitext stems
coincide (the Python leading-dot rule). -/
def dotFiles : List PFile := [⟨".txt", some "a"⟩, ⟨".txt.txt", some "b"⟩]

/-- A remote whose completed job returns a single well-formed line whose key
matches no submitted request. -/
def remoteUnknownKey : Remote :=
  ⟨[⟨"completed", none, some "out1"⟩],
   [RawLine.parsed (some "zzz") (some "hi") "raw0"]⟩

/-- A remote whose job terminates as failed with a reported error detail. -/
def remoteFailed : Remote := ⟨[⟨"failed", some "boom", none⟩], []⟩

/-- A remote whose job completes but carries no output file id. -/
def remoteNoOutput : Remote := ⟨[⟨"completed", none, none⟩], []⟩

/-- A fan-out behavior where task index 2 fails and the others succeed. -/
def fanRemote : String → Nat → FanOutcome :=
  fun _ i => if i = 2 then FanOutcome.err "boom" else FanOutcome.ok "sample"

/-! ## Helper lemmas -/

theorem foldl_set_length {α : Type} (g : Nat → α) (order : List Nat)
    (buf : List α) :
    (order.foldl (fun b i => b.set i (g i)) buf).length = buf.length := by
  induction order generalizing buf with
  | nil => rfl
  | cons j rest ih =>
    simp only [List.foldl_cons]
    rw [ih, List.length_set]

theorem foldl_set_not_mem {α : Type} (g : Nat → α) (order : List Nat)
    (buf : List α) (k : Nat) (hk : k ∉ order) :
    (order.foldl (fun b i => b.set i (g i)) buf)[k]? = buf[k]? := by
  induction order generalizing buf with
  | nil => rfl
  | cons j rest ih =>
    simp only [List.foldl_cons]
    have hkj : j ≠ k := fun h => hk (h ▸ List.mem_cons_self j rest)
    rw [ih _ fun h => hk (List.mem_cons_of_mem j h), List.getElem?_set_ne hkj]

theorem foldl_set_mem {α : Type} (g : Nat → α) (order : List Nat)
    (buf : List α) (k : Nat) (hmem : k ∈ order) (hlen : k < buf.length) :
    (order.foldl (fun b i => b.set i (g i)) buf)[k]? = some (g k) := by
  induction order generalizing buf with
  | nil => simp at hmem
  | cons j rest ih =>
    simp only [List.foldl_cons]
    by_cases hr : k ∈ rest
    · exact ih _ hr (by rw [List.length_set]; exact hlen)
    · have hkj : k = j := by
        rcases List.mem_cons.mp hmem with h | h
        · exact h
        · exact absurd h hr
      subst hkj
      rw [foldl_set_not_mem g rest _ k hr, List.getElem?_set_self hlen]

theorem pollLoop_not_demux (polls : List Batch) :
    ∀ e ∈ (pollLoop polls).2, isDemuxEvent e = false := by
  induction polls with
  | nil => intro e he; simp [pollLoop] at he
  | cons b rest ih =>
    intro e he
    by_cases h : isTerminal b.status
    · simp [pollLoop, h] at he
      subst he; rfl
    · simp only [pollLoop, h, if_neg, Bool.false_eq_true, ite_false,
        List.mem_cons] at he
      rcases he with he | he | he
      · subst he; rfl
      · subst he; rfl
      · exact ih e he

theorem pollLoop_terminal (pre : List Batch) (b : Batch)
    (hpre : ∀ x ∈ pre, isTerminal x.status = false)
    (hb : isTerminal b.status = true) :
    pollLoop (pre ++ [b]) = (some b, pollEvents pre.length) := by
  induction pre with
  | nil => simp [pollLoop, hb, pollEvents]
  | cons x xs ih =>
    have hx : isTerminal x.status = false := hpre x (List.mem_cons_self x xs)
    have ihx := ih fun y hy => hpre y (List.mem_cons_of_mem x hy)
    simp [pollLoop, hx, pollEvents, ihx]

theorem pollEvents_countQ (n : Nat) : (pollEvents n).countP isQuery = n + 1 := by
  induction n with
  | zero => rfl
  | succ n ih => simp [pollEvents, List.countP_cons, isQuery, isSleep, ih]

theorem pollEvents_countS (n : Nat) : (pollEvents n).countP isSleep = n := by
  induction n with
  | zero => rfl
  | succ n ih => simp [pollEvents, List.countP_cons, isQuery, isSleep, ih]

theorem demuxLines_ok_append (pre l2 : List RawLine)
    (h : ∀ l ∈ pre, lineOk l = true) :
    demuxLines (pre ++ l2) =
      ((demuxLines pre).1 ++ (demuxLines l2).1, (demuxLines l2).2) := by
  induction pre with
  | nil => simp [demuxLines]
  | cons x xs ih =>
    have hx : lineOk x = true := h x (List.mem_cons_self x xs)
    have ih2 := ih fun y hy => h y (List.mem_cons_of_mem x hy)
    cases x with
    | malformed raw => simp [lineOk] at hx
    | parsed cid cont raw =>
      cases cont with
      | none => simp [lineOk] at hx
      | some c => simp [demuxLines, ih2]

theorem demuxLines_bad (bad : RawLine) (rest : List RawLine)
    (hbad : lineOk bad = false) : demuxLines (bad :: rest) = ([], true) := by
  cases bad with
  | malformed raw => rfl
  | parsed cid cont raw =>
    cases cont with
    | none => rfl
    | some c => simp [lineOk] at hbad

theorem demuxLines_ok_flag (lines : List RawLine)
    (h : ∀ l ∈ lines, lineOk l = true) : (demuxLines lines).2 = false := by
  induction lines with
  | nil => rfl
  | cons x xs ih =>
    have hx : lineOk x = true := h x (List.mem_cons_self x xs)
    have ih2 := ih fun y hy => h y (List.mem_cons_of_mem x hy)
    cases x with
    | malformed raw => simp [lineOk] at hx
    | parsed cid cont raw =>
      cases cont with
      | none => simp [lineOk] at hx
      | some c => simp [demuxLines, ih2]

theorem demuxLines_ok_length (lines : List RawLine)
    (h : ∀ l ∈ lines, lineOk l = true) :
    (demuxLines lines).1.length = lines.length := by
  induction lines with
  | nil => rfl
  | cons x xs ih =>
    have hx : lineOk x = true := h x (List.mem_cons_self x xs)
    have ih2 := ih fun y hy => h y (List.mem_cons_of_mem x hy)
    cases x with
    | malformed raw => simp [lineOk] at hx
    | parsed cid cont raw =>
      cases cont with
      | none => simp [lineOk] at hx
      | some c => simp [demuxLines, ih2]

theorem demuxLines_ok_mem (lines : List RawLine)
    (h : ∀ l ∈ lines, lineOk l = true) (c s raw : String)
    (hmem : RawLine.parsed (some c) (some s) raw ∈ lines) :
    (c ++ ".txt", s) ∈ (demuxLines lines).1 := by
  induction lines with
  | nil => simp at hmem
  | cons x xs ih =>
    have hx : lineOk x = true := h x (List.mem_cons_self x xs)
    have ih2 := ih fun y hy => h y (List.mem_cons_of_mem x hy)
    rcases List.mem_cons.mp hmem with heq | htail
    · subst heq
      simp [demuxLines, Option.getD]
    · cases x with
      | malformed raw2 => simp [lineOk] at hx
      | parsed cid cont raw2 =>
        cases cont with
        | none => simp [lineOk] at hx
        | some c2 => simpa [demuxLines] using Or.inr (ih2 htail)

/-! ## Claim theorems -/

/-- C2: for every payload and every count ≥ 1, and any completion order
covering every task index, the fan-out invoker returns an ordered collection
of exactly `count` per-index outcomes in which the entry at index `i` is the
outcome of task `i` regardless of completion order, and a failure of any
single task yields an error outcome at its index without preventing
collection of the other tasks' results. -/
theorem C2_fanout_order_and_isolation (payload : String) (count : Nat)
    (remote : String → Nat → FanOutcome) (order : List Nat)
    (_hcount : 1 ≤ count) (hcover : ∀ i, i < count → i ∈ order) :
    (invoke_many payload count remote order).length = count ∧
    (∀ i, i < count →
      (invoke_many payload count remote order)[i]? =
        some (some (remote payload i))) ∧
    (∀ j e, j < count → remote payload j = FanOutcome.err e →
      (invoke_many payload count remote order)[j]? =
        some (some (FanOutcome.err e)) ∧
      ∀ i, i < count → i ≠ j →
        (invoke_many payload count remote order)[i]? =
          some (some (remote payload i))) := by
  have hget : ∀ i, i < count →
      (invoke_many payload count remote order)[i]? =
        some (some (remote payload i)) := by
    intro i hi
    unfold invoke_many
    exact foldl_set_mem _ order _ i (hcover i hi)
      (by rw [List.length_replicate]; exact hi)
  refine ⟨?_, hget, ?_⟩
  · unfold invoke_many
    rw [foldl_set_length]
    exact List.length_replicate count none
  · intro j e hj hje
    exact ⟨by rw [hget j hj, hje], fun i hi _ => hget i hi⟩

/-- Witness for C2: count 5, completion order 4, 1, 0, 3, 2, task 2 failing. -/
theorem C2_fanout_witness :
    (invoke_many "p" 5 fanRemote [4, 1, 0, 3, 2]).length = 5 ∧
    (∀ i, i < 5 →
      (invoke_many "p" 5 fanRemote [4, 1, 0, 3, 2])[i]? =
        some (some (fanRemote "p" i))) ∧
    (∀ j e, j < 5 → fanRemote "p" j = FanOutcome.err e →
      (invoke_many "p" 5 fanRemote [4, 1, 0, 3, 2])[j]? =
        some (some (FanOutcome.err e)) ∧
      ∀ i, i < 5 → i ≠ j →
        (invoke_many "p" 5 fanRemote [4, 1, 0, 3, 2])[i]? =
          some (some (fanRemote "p" i))) :=
  C2_fanout_order_and_isolation "p" 5 fanRemote [4, 1, 0, 3, 2]
    (by decide) (by decide)

/-- C3: for every sequence of status reports consisting of non-terminal
reports followed by one terminal report, the poller queries once per report,
sleeps the fixed 30 second interval after each non-terminal report and never
after the terminal one (the trace `pollEvents pre.length` ends in a query),
and returns the job in its terminal state. The counts make the query and
sleep totals explicit. -/
theorem C3_poller_queries_and_sleeps (pre : List Batch) (b : Batch)
    (hpre : ∀ x ∈ pre, isTerminal x.status = false)
    (hb : isTerminal b.status = true) :
    pollLoop (pre ++ [b]) = (some b, pollEvents pre.length) ∧
    (pollEvents pre.length).countP isQuery = (pre ++ [b]).length ∧
    (pollEvents pre.length).countP isSleep = pre.length :=
  ⟨pollLoop_terminal pre b hpre hb,
   by simp [pollEvents_countQ],
   pollEvents_countS pre.length⟩

/-- Witness for C3: statuses queued, queued, running, completed give exactly
4 queries, 3 sleeps, and the completed job is returned. -/
theorem C3_poller_witness :
    pollLoop ([⟨"queued", none, none⟩, ⟨"queued", none, none⟩,
        ⟨"running", none, none⟩] ++ [⟨"completed", none, some "out1"⟩]) =
      (some ⟨"completed", none, some "out1"⟩, pollEvents 3) ∧
    (pollEvents 3).countP isQuery = 4 ∧
    (pollEvents 3).countP isSleep = 3 := by
  have h := C3_poller_queries_and_sleeps
    [⟨"queued", none, none⟩, ⟨"queued", none, none⟩, ⟨"running", none, none⟩]
    ⟨"completed", none, some "out1"⟩ (by decide) (by decide)
  simpa using h

/-- C4: when the job reaches the terminal status failed or cancelled, the
stage returns normally with the `jobNotCompleted` outcome carrying the
remote-reported error detail exactly as the remote supplied it, and the
demultiplexing step is never invoked: the trace holds no content fetch and no
file write of any kind. -/
theorem C4_failed_or_cancelled_returns_normally
    (k systemPrompt : String) (md : Option String) (files : List PFile)
    (remote : Remote) (b : Batch) (pevs : List Event)
    (hk : apiKeyRejected (some k) = false)
    (hel : (files.filter fun f => strEndsWith f.name ".txt").isEmpty = false)
    (hreq : (buildRequests systemPrompt (md.getD "")
        (files.filter fun f => strEndsWith f.name ".txt")).isEmpty = false)
    (hpoll : pollLoop remote.polls = (some b, pevs))
    (hfail : b.status = "failed" ∨ b.status = "cancelled") :
    process_batch (some k) (some systemPrompt) md (some files) remote =
      (Outcome.jobNotCompleted b.status b.errors,
        [Event.uploadFile, Event.createJob] ++ pevs) ∧
    ∀ e ∈ (process_batch (some k) (some systemPrompt) md (some files) remote).2,
      isDemuxEvent e = false := by
  have hst : (b.status != "completed") = true := by
    rcases hfail with h | h <;> rw [h] <;> rfl
  have hmain : process_batch (some k) (some systemPrompt) md (some files) remote =
      (Outcome.jobNotCompleted b.status b.errors,
        [Event.uploadFile, Event.createJob] ++ pevs) := by
    simp [process_batch, hk, hel, hreq, hpoll, hst]
  refine ⟨hmain, ?_⟩
  rw [hmain]
  intro e he
  rcases List.mem_append.mp he with h1 | h2
  · rcases List.mem_cons.mp h1 with h | h
    · subst h; rfl
    · rcases List.mem_cons.mp h with h | h
      · subst h; rfl
      · simp at h
  · have hp := pollLoop_not_demux remote.polls
    rw [hpoll] at hp
    exact hp e h2

/-- Witness for C4: a job that terminates as failed with error detail "boom"
yields the normal `jobNotCompleted` outcome carrying "boom" and a trace of
submission and polling events only. -/
theorem C4_failed_witness :
    process_batch (some "sk") (some "inst") none (some folderOne) remoteFailed =
      (Outcome.jobNotCompleted "failed" (some "boom"),
        [Event.uploadFile, Event.createJob] ++ [Event.queryStatus]) ∧
    ∀ e ∈ (process_batch (some "sk") (some "inst") none (some folderOne)
        remoteFailed).2, isDemuxEvent e = false :=
  C4_failed_or_cancelled_returns_normally "sk" "inst" none folderOne
    remoteFailed ⟨"failed", some "boom", none⟩ [Event.queryStatus]
    (by decide) (by decide) (by decide) (by decide) (by decide)

/-- C9: when the job reaches status completed but carries no output file id,
the stage stops with the distinct `missingOutputFileId` error outcome (not a
silent skip), and no per-item output file is written: the trace holds no
content fetch and no file write of any kind. -/
theorem C9_completed_without_output_handle
    (k systemPrompt : String) (md : Option String) (files : List PFile)
    (remote : Remote) (b : Batch) (pevs : List Event)
    (hk : apiKeyRejected (some k) = false)
    (hel : (files.filter fun f => strEndsWith f.name ".txt").isEmpty = false)
    (hreq : (buildRequests systemPrompt (md.getD "")
        (files.filter fun f => strEndsWith f.name ".txt")).isEmpty = false)
    (hpoll : pollLoop remote.polls = (some b, pevs))
    (hst : b.status = "completed") (hout : b.output_file_id = none) :
    process_batch (some k) (some systemPrompt) md (some files) remote =
      (Outcome.missingOutputFileId,
        [Event.uploadFile, Event.createJob] ++ pevs) ∧
    ∀ e ∈ (process_batch (some k) (some systemPrompt) md (some files) remote).2,
      isDemuxEvent e = false := by
  have hst2 : (b.status != "completed") = false := by rw [hst]; rfl
  have hmain : process_batch (some k) (some systemPrompt) md (some files) remote =
      (Outcome.missingOutputFileId,
        [Event.uploadFile, Event.createJob] ++ pevs) := by
    simp [process_batch, hk, hel, hreq, hpoll, hst2, hout]
  refine ⟨hmain, ?_⟩
  rw [hmain]
  intro e he
  rcases List.mem_append.mp he with h1 | h2
  · rcases List.mem_cons.mp h1 with h | h
    · subst h; rfl
    · rcases List.mem_cons.mp h with h | h
      · subst h; rfl
      · simp at h
  · have hp := pollLoop_not_demux remote.polls
    rw [hpoll] at hp
    exact hp e h2

/-- Witness for C9: a completed job with no output file id yields the
`missingOutputFileId` outcome and no demux events. -/
theorem C9_missing_output_witness :
    process_batch (some "sk") (some "inst") none (some folderOne) remoteNoOutput =
      (Outcome.missingOutputFileId,
        [Event.uploadFile, Event.createJob] ++ [Event.queryStatus]) ∧
    ∀ e ∈ (process_batch (some "sk") (some "inst") none (some folderOne)
        remoteNoOutput).2, isDemuxEvent e = false :=
  C9_completed_without_output_handle "sk" "inst" none folderOne
    remoteNoOutput ⟨"completed", none, none⟩ [Event.queryStatus]
    (by decide) (by decide) (by decide) (by decide) (by decide) (by decide)

/-- C8: when the directory listing holds no file with the configured
extension (in particular when it is empty), both batch stages stop with the
no-eligible-files error outcome and an empty trace: no file upload and no job
creation is issued to the remote service. -/
theorem C8_empty_batch_no_network (k systemPrompt : String) (md : Option String)
    (files : List PFile) (remote : Remote) (folderName : String)
    (hk : apiKeyRejected (some k) = false)
    (hnone : ∀ f ∈ files, strEndsWith f.name ".txt" = false) :
    process_batch (some k) (some systemPrompt) md (some files) remote =
      (Outcome.noEligibleFiles, []) ∧
    extract_facts_in_batch (some k) (some files) folderName remote =
      (Outcome.noEligibleFiles, []) := by
  have hfil : files.filter (fun f => strEndsWith f.name ".txt") = [] :=
    List.filter_eq_nil_iff.mpr fun a ha => by simp [hnone a ha]
  constructor
  · simp [process_batch, hk, hfil]
  · simp [extract_facts_in_batch, hk, hfil]

/-- Witness for C8: an empty directory listing gives the error outcome and an
empty event trace in both stages. -/
theorem C8_empty_batch_witness :
    process_batch (some "sk") (some "inst") none (some []) remoteFailed =
      (Outcome.noEligibleFiles, []) ∧
    extract_facts_in_batch (some "sk") (some []) "folder" remoteFailed =
      (Outcome.noEligibleFiles, []) :=
  C8_empty_batch_no_network "sk" "inst" none [] remoteFailed "folder"
    (by decide) (by decide)

/-- C10: the literal placeholder API key is rejected by the same startup
check as an absent key: both batch stages return the `missingApiKey` outcome
with an empty event trace (no client construction, no remote call) in either
case. -/
theorem C10_placeholder_key_like_absent (instructions md : Option String)
    (folder : Option (List PFile)) (folderName : String) (remote : Remote) :
    process_batch (some "YOUR_OPENAI_API_KEY_HERE") instructions md folder
        remote = (Outcome.missingApiKey, []) ∧
    process_batch none instructions md folder remote =
      (Outcome.missingApiKey, []) ∧
    extract_facts_in_batch (some "YOUR_OPENAI_API_KEY_HERE") folder folderName
        remote = (Outcome.missingApiKey, []) ∧
    extract_facts_in_batch none folder folderName remote =
      (Outcome.missingApiKey, []) := by
  have h1 : apiKeyRejected (some "YOUR_OPENAI_API_KEY_HERE") = true := by decide
  have h2 : apiKeyRejected none = true := rfl
  refine ⟨?_, ?_, ?_, ?_⟩ <;>
    simp [process_batch, extract_facts_in_batch, h1, h2]

/-- C1 counterexample: a stream of one malformed line followed by five
well-formed lines. The claim predicts five per-key output files; the code
aborts at the malformed line and writes zero per-key output files (while
still preserving the raw artifact under the diagnostic name). -/
theorem C1_counterexample :
    (process_batch (some "sk") (some "inst") none (some folderOne)
        remoteBadFirst).2.countP isWriteOutput = 0 ∧
    (process_batch (some "sk") (some "inst") none (some folderOne)
        remoteBadFirst).1 = Outcome.done true ∧
    Event.writeRawDiagnostic "raw_error_output.txt" remoteBadFirst.resultLines ∈
      (process_batch (some "sk") (some "inst") none (some folderOne)
        remoteBadFirst).2 ∧
    remoteBadFirst.resultLines.countP lineOk = 5 ∧
    remoteBadFirst.resultLines.length = 6 := by decide

/-- C1 (amended): a malformed or unparsable line aborts processing at that
line: exactly the well-formed lines preceding the first bad line are written,
one per-key output file each, later lines are not processed, and whenever a
bad line is present the raw output content is preserved verbatim in the
diagnostic file. -/
theorem C1_abort_at_first_bad_line (dName : String) (pre rest : List RawLine)
    (bad : RawLine) (hpre : ∀ l ∈ pre, lineOk l = true)
    (hbad : lineOk bad = false) :
    (demuxPhase dName (pre ++ bad :: rest)).1 = true ∧
    (demuxPhase dName (pre ++ bad :: rest)).2 =
      ((demuxLines pre).1.map fun fc => Event.writeOutput fc.1 fc.2) ++
        [Event.writeRawDiagnostic dName (pre ++ bad :: rest)] ∧
    (demuxLines pre).1.length = pre.length := by
  have hsplit := demuxLines_ok_append pre (bad :: rest) hpre
  rw [demuxLines_bad bad rest hbad] at hsplit
  refine ⟨?_, ?_, demuxLines_ok_length pre hpre⟩
  · show (demuxLines (pre ++ bad :: rest)).2 = true
    rw [hsplit]
  · show ((demuxLines (pre ++ bad :: rest)).1.map
        fun fc => Event.writeOutput fc.1 fc.2) ++
        (if (demuxLines (pre ++ bad :: rest)).2 then
          [Event.writeRawDiagnostic dName (pre ++ bad :: rest)] else []) = _
    rw [hsplit]
    simp

/-- Witness for the amended C1: two good lines, then a malformed line, then
one further good line; exactly the two leading lines are written and the raw
stream is preserved. -/
theorem C1_abort_witness :
    (demuxPhase "raw_error_output.txt"
        ([RawLine.parsed (some "r1") (some "c1") "l1",
          RawLine.parsed (some "r2") (some "c2") "l2"] ++
          RawLine.malformed "bad" ::
            [RawLine.parsed (some "r3") (some "c3") "l3"])).1 = true ∧
    (demuxPhase "raw_error_output.txt"
        ([RawLine.parsed (some "r1") (some "c1") "l1",
          RawLine.parsed (some "r2") (some "c2") "l2"] ++
          RawLine.malformed "bad" ::
            [RawLine.parsed (some "r3") (some "c3") "l3"])).2 =
      ((demuxLines [RawLine.parsed (some "r1") (some "c1") "l1",
          RawLine.parsed (some "r2") (some "c2") "l2"]).1.map
        fun fc => Event.writeOutput fc.1 fc.2) ++
        [Event.writeRawDiagnostic "raw_error_output.txt"
          ([RawLine.parsed (some "r1") (some "c1") "l1",
            RawLine.parsed (some "r2") (some "c2") "l2"] ++
            RawLine.malformed "bad" ::
              [RawLine.parsed (some "r3") (some "c3") "l3"])] ∧
    (demuxLines [RawLine.parsed (some "r1") (some "c1") "l1",
        RawLine.parsed (some "r2") (some "c2") "l2"]).1.length = 2 :=
  C1_abort_at_first_bad_line "raw_error_output.txt"
    [RawLine.parsed (some "r1") (some "c1") "l1",
     RawLine.parsed (some "r2") (some "c2") "l2"]
    [RawLine.parsed (some "r3") (some "c3") "l3"]
    (RawLine.malformed "bad") (by decide) (by decide)

/-- C5: in a result stream whose lines all parse, every well-formed line
carrying `custom_id` `c` (in particular one answering a submitted request
whose key is `c`) is written to the output artifact named `c` with exactly
the content field of the result. -/
theorem C5_roundtrip_by_custom_id (systemPrompt mdContent dName : String)
    (files : List PFile) (lines : List RawLine) (c s raw : String)
    (_hreq : c ∈ (buildRequests systemPrompt mdContent files).map
        fun r => r.custom_id)
    (hall : ∀ l ∈ lines, lineOk l = true)
    (hline : RawLine.parsed (some c) (some s) raw ∈ lines) :
    Event.writeOutput (c ++ ".txt") s ∈ (demuxPhase dName lines).2 := by
  have hmem := demuxLines_ok_mem lines hall c s raw hline
  show Event.writeOutput (c ++ ".txt") s ∈
    ((demuxLines lines).1.map fun fc => Event.writeOutput fc.1 fc.2) ++
      (if (demuxLines lines).2 then [Event.writeRawDiagnostic dName lines]
        else [])
  exact List.mem_append_left _ (List.mem_map.mpr ⟨(c ++ ".txt", s), hmem, rfl⟩)

/-- Witness for C5: a request built from a.txt has key "a"; the result line
with custom_id "a" and content "body" is written to a.txt containing "body". -/
theorem C5_roundtrip_witness :
    Event.writeOutput ("a" ++ ".txt") "body" ∈
      (demuxPhase "raw_error_output.txt"
        [RawLine.parsed (some "a") (some "body") "raw0"]).2 :=
  C5_roundtrip_by_custom_id "inst" "" "raw_error_output.txt" folderOne
    [RawLine.parsed (some "a") (some "body") "raw0"] "a" "body" "raw0"
    (by decide) (by decide) (by decide)

/-- C6 counterexample: a single submitted request with key "a" and a result
line carrying the unknown key "zzz". The code reports no error condition (the
outcome carries no failure and the parse-failure flag is false) and writes
the line out as an ordinary per-item output file zzz.txt, contradicting the
claim that an unknown key is reported and not silently written. -/
theorem C6_counterexample :
    process_batch (some "sk") (some "inst") none (some folderOne)
        remoteUnknownKey =
      (Outcome.done false,
        [Event.uploadFile, Event.createJob, Event.queryStatus,
          Event.fetchContent, Event.writeOutput "zzz.txt" "hi"]) ∧
    "zzz" ∉ (buildRequests "inst" "" folderOne).map (fun r => r.custom_id) := by
  constructor
  · decide
  · decide

/-- C6 (amended): a result line whose correlation key matches no submitted
request is silently written out as an ordinary per-item output file named by
that key: the demultiplexer never consults the submitted requests, the write
happens for any such key, and no error condition is reported (the
parse-failure flag stays false on a stream of well-formed lines). -/
theorem C6_unknown_key_silently_written (dName : String) (lines : List RawLine)
    (reqs : List BatchRequest) (c s raw : String)
    (hall : ∀ l ∈ lines, lineOk l = true)
    (hline : RawLine.parsed (some c) (some s) raw ∈ lines)
    (_hunknown : c ∉ reqs.map fun r => r.custom_id) :
    Event.writeOutput (c ++ ".txt") s ∈ (demuxPhase dName lines).2 ∧
    (demuxPhase dName lines).1 = false := by
  have hmem := demuxLines_ok_mem lines hall c s raw hline
  constructor
  · show Event.writeOutput (c ++ ".txt") s ∈
      ((demuxLines lines).1.map fun fc => Event.writeOutput fc.1 fc.2) ++
        (if (demuxLines lines).2 then [Event.writeRawDiagnostic dName lines]
          else [])
    exact List.mem_append_left _
      (List.mem_map.mpr ⟨(c ++ ".txt", s), hmem, rfl⟩)
  · exact demuxLines_ok_flag lines hall

/-- Witness for the amended C6: the unknown key "zzz" is written to zzz.txt
with no error reported. -/
theorem C6_unknown_key_witness :
    Event.writeOutput ("zzz" ++ ".txt") "hi" ∈
      (demuxPhase "raw_error_output.txt"
        [RawLine.parsed (some "zzz") (some "hi") "raw0"]).2 ∧
    (demuxPhase "raw_error_output.txt"
      [RawLine.parsed (some "zzz") (some "hi") "raw0"]).1 = false :=
  C6_unknown_key_silently_written "raw_error_output.txt"
    [RawLine.parsed (some "zzz") (some "hi") "raw0"]
    (buildRequests "inst" "" folderOne) "zzz" "hi" "raw0"
    (by decide) (by decide) (by decide)

/-- C7 counterexample: the two distinct readable eligible files .txt and
.txt.txt both receive the correlation key .txt (the Python splitext
leading-dot rule), so the builder emits two requests whose keys are not
unique, contradicting the claim of N unique correlation keys. -/
theorem C7_counterexample :
    dotFiles.Nodup ∧
    (∀ f ∈ dotFiles, strEndsWith f.name ".txt" = true ∧ f.content.isSome) ∧
    (buildRequests "inst" ""
        (dotFiles.filter fun f => strEndsWith f.name ".txt")).map
        (fun r => r.custom_id) = [".txt", ".txt"] ∧
    ¬ ((buildRequests "inst" ""
        (dotFiles.filter fun f => strEndsWith f.name ".txt")).map
        (fun r => r.custom_id)).Nodup := by decide

/-- C7 (amended): for every list of readable files the builder produces
exactly one request per file, in order, whose correlation key is the file
name with its final extension removed under Python splitext semantics (a name
whose part before its last dot is all dots is kept whole); distinct eligible
names can therefore share a key, so the keys are not guaranteed unique. -/
theorem C7_keys_are_splitext_stems (systemPrompt mdContent : String)
    (files : List PFile) (h : ∀ f ∈ files, f.content.isSome = true) :
    (buildRequests systemPrompt mdContent files).map (fun r => r.custom_id) =
      files.map (fun f => splitextStem f.name) ∧
    (buildRequests systemPrompt mdContent files).length = files.length := by
  have hmap : (buildRequests systemPrompt mdContent files).map
      (fun r => r.custom_id) = files.map fun f => splitextStem f.name := by
    induction files with
    | nil => rfl
    | cons x xs ih =>
      have hx := h x (List.mem_cons_self x xs)
      have ih2 := ih fun y hy => h y (List.mem_cons_of_mem x hy)
      cases hcont : x.content with
      | none => rw [hcont] at hx; simp at hx
      | some t =>
        simp only [buildRequests] at ih2
        simp [buildRequests, List.filterMap_cons, hcont, ih2]
  refine ⟨hmap, ?_⟩
  have h2 := congrArg List.length hmap
  simpa using h2

/-- Witness for the amended C7: one readable file a.txt gives one request
with key "a". -/
theorem C7_stems_witness :
    (buildRequests "inst" "" folderOne).map (fun r => r.custom_id) =
      folderOne.map (fun f => splitextStem f.name) ∧
    (buildRequests "inst" "" folderOne).length = folderOne.length :=
  C7_keys_are_splitext_stems "inst" "" folderOne (by decide)

end DraftTwo
